import Mathlib

/-!
Verification of `src/CurveAnalysis/fda_feature.py` (module `fda_feature`).

Shallow embedding conventions:
* numpy arrays are total functions `ℕ → ℝ` (vectors), `ℕ → ℕ → ℝ` (2-D) with the
  relevant shape carried separately; only in-shape indices are ever meaningful.
* A per-point derivative matrix `DX1` has layout `variable → observation → ℝ`
  (the python `V × N` matrix `dx1_mat`).
* The external `skfda` collaborators (BasisSmoother, SmoothingParameterSearch,
  FDataGrid.derivative, to_basis/to_grid) are abstracted by a fit oracle
  supplied as an explicit argument; all control flow, validation and state
  updates of the python module are embedded faithfully.
* Python exceptions become `Except PyError`; `print` output is returned as a
  list of messages on the success path.
-/

namespace FdaFeature

noncomputable section

/-- Euclidean norm of the first `V` entries of `x`: `numpy.linalg.norm` with
default order applied to a length-`V` vector. -/
def euclNorm (V : ℕ) (x : ℕ → ℝ) : ℝ :=
  Real.sqrt (∑ k in Finset.range V, (x k) ^ 2)

/-- Dot product `x.dot(y)` of two length-`V` vectors. -/
def dotV (V : ℕ) (x y : ℕ → ℝ) : ℝ :=
  ∑ k in Finset.range V, x k * y k

/-- The local helper `norm2` inside `_calculate_curvature`: the squared L2
norm, computed in the source as `norm(x)**2`. -/
def norm2 (V : ℕ) (x : ℕ → ℝ) : ℝ :=
  (euclNorm V x) ^ 2

/-- `_calculate_velocity(DX1)`: for each observation (column of the `V × N`
matrix `DX1`), the Euclidean norm of that column
(`[norm(dxi) for dxi in DX1.T]`). -/
def calculate_velocity (V : ℕ) (DX1 : ℕ → ℕ → ℝ) : ℕ → ℝ :=
  fun j => euclNorm V (fun k => DX1 k j)

/-- `_calculate_arc_length(DX1, t)`: the source computes
`np.concatenate([[0], cumtrapz(v)])` where `v = _calculate_velocity(DX1)`.
`cumtrapz` is called WITHOUT `x=t`, so scipy uses its default unit spacing
`dx = 1`: entry `j` is `∑_{i<j} (v i + v (i+1)) / 2`.  The parameter `t` is
accepted but never used (the locals `n`, `t0`, `v0` in the source are dead). -/
def calculate_arc_length (V : ℕ) (DX1 : ℕ → ℕ → ℝ) (t : ℕ → ℝ) : ℕ → ℝ :=
  fun j =>
    ∑ i in Finset.range j,
      (calculate_velocity V DX1 i + calculate_velocity V DX1 (i + 1)) / 2

/-- The arc length the spec describes: cumulative trapezoidal rule over the
consecutive domain sample points, increment
`(v i + v (i+1)) / 2 * (t (i+1) - t i)`.  Written from the spec's words, for
comparison with `calculate_arc_length` above. -/
def arcLengthTrapzSpec (V : ℕ) (DX1 : ℕ → ℕ → ℝ) (t : ℕ → ℝ) : ℕ → ℝ :=
  fun j =>
    ∑ i in Finset.range j,
      (calculate_velocity V DX1 i + calculate_velocity V DX1 (i + 1)) / 2
        * (t (i + 1) - t i)

/-- `_calculate_curvature(DX1, DX2)`: per observation `i`,
`res = norm2(DX1[:,i]) * norm2(DX2[:,i]) - DX1[:,i].dot(DX2[:,i])**2`, then
`sqrt(abs(res)) / norm(DX1[:,i])**3`. -/
def calculate_curvature (V : ℕ) (DX1 DX2 : ℕ → ℕ → ℝ) : ℕ → ℝ :=
  fun i =>
    Real.sqrt |norm2 V (fun k => DX1 k i) * norm2 V (fun k => DX2 k i)
        - (dotV V (fun k => DX1 k i) (fun k => DX2 k i)) ^ 2|
      / (euclNorm V (fun k => DX1 k i)) ^ 3

/-- Values produced by numpy floating-point scalar arithmetic, used to model
the one place where the python code divides by a possibly-zero float.  Under
numpy's default error state a float division never raises a python exception
(it emits a RuntimeWarning): `0.0/0.0` is `nan`, `x/0.0` is `±inf` for
`x ≠ 0`. -/
inductive NpFloat
  | finite (x : ℝ)
  | nan
  | posInf
  | negInf
deriving DecidableEq

/-- numpy float division of two finite values: exceptionless; division by zero
yields `nan` or `±inf` according to the sign of the numerator. -/
def npDiv (x y : ℝ) : NpFloat :=
  if y = 0 then
    if x = 0 then NpFloat.nan else if 0 < x then NpFloat.posInf else NpFloat.negInf
  else NpFloat.finite (x / y)

/-- The per-observation curvature evaluation of `_calculate_curvature` with
its final division performed under numpy float semantics (`npDiv`): numerator
`sqrt(abs(res))`, denominator `norm(DX1)**3`.  `DX1`, `DX2` here are one
observation's length-`V` derivative vectors. -/
def curvatureEntryNp (V : ℕ) (DX1 DX2 : ℕ → ℝ) : NpFloat :=
  npDiv (Real.sqrt |norm2 V DX1 * norm2 V DX2 - (dotV V DX1 DX2) ^ 2|)
    ((euclNorm V DX1) ^ 3)

/-- Python exceptions raised by the module. -/
inductive PyError
  | valueError (msg : String)
  | nameErr (missing : String)
  | indexError
deriving DecidableEq

/-- An `skfda` smoother configuration; opaque to the python module except for
being passed to the external search/fit machinery, so modelled abstractly. -/
abbrev Smoother := ℕ

/-- The `smoother` argument of `smooth_grids`: either a single smoother
(replicated across variables) or a list/ndarray of smoothers. -/
inductive SmootherArg
  | single (s : Smoother)
  | listOf (l : List Smoother)

/-- Everything the external `skfda` machinery produces for one variable in
`smooth_grids`: the cross-validation score history
(`grid_search.cv_results_`), the smoothed grid (`best_est.fit_transform`),
and — from the basis representation of the smoothed grid — the coefficient
array and the first/second derivative grids evaluated at the sample points.
Grids are `series → observation → ℝ`; coefficients `series → index → ℝ`. -/
structure FitResult where
  history : List ℝ
  smoothedGrid : ℕ → ℕ → ℝ
  coeffs : ℕ → ℕ → ℝ
  dx1Grid : ℕ → ℕ → ℝ
  dx2Grid : ℕ → ℕ → ℝ

/-- The external smoothing collaborator: given one variable's smoother and
coordinate grid, performs the hyperparameter search, fit and differentiation
(the calls to SmoothingParameterSearch, fit_transform, to_basis, derivative,
to_grid in the source). -/
abbrev FitOracle := Smoother → (ℕ → ℕ → ℝ) → FitResult

/-- The state of a `CurveAnalysis` object: dimensions `_nSeries`, `_nObs`,
`_nVar`, the sample points, the per-variable coordinate grids
(`variable → series → observation → ℝ`), the `_smoothed` / `_scaled` flags,
and the derivative grids and coefficients (meaningful once smoothed). -/
structure CurveAnalysis where
  nSeries : ℕ
  nObs : ℕ
  nVar : ℕ
  sample_points : ℕ → ℝ
  coordinates_grids : ℕ → ℕ → ℕ → ℝ
  smoothed : Bool
  scaled : Bool
  dx1 : ℕ → ℕ → ℕ → ℝ
  dx2 : ℕ → ℕ → ℕ → ℝ
  coefficients : ℕ → ℕ → ℕ → ℝ

/-- An output `FDataGrid` as built by the compute methods: a 2-D data matrix
with its shape, the sample points and the dataset label. -/
structure FDataGridE where
  nRows : ℕ
  nCols : ℕ
  data : ℕ → ℕ → ℝ
  sample_points : ℕ → ℝ
  dataset_label : String

namespace CurveAnalysis

/-- `CurveAnalysis.smooth_grids`.  Control flow from the source:
`smoother is None` → the code prints "Default Smoother used" and then
evaluates `BasisSmoother(basis, ...)`, but the global name `basis` is defined
nowhere in the module (only `BSpline` and `FDataBasis` are imported), so
python raises `NameError: name 'basis' is not defined`.  A list-valued
`smoother` of length ≠ `_nVar` raises ValueError before any fitting; a single
smoother is replicated `_nVar` times.  On success every per-variable grid,
the derivative grids and the coefficients are replaced from the fit results
and `_smoothed` is set.  The optional `return_history` value and the
`param_values` / `scorer` arguments only feed the external machinery
(absorbed into the oracle) and are omitted.  Messages printed on the success
path are returned alongside the new state.

`smoothedState` is the state written back by a successful `smooth_grids`
call: every per-variable grid, derivative grid and coefficient array is
replaced by the corresponding fit result, and `_smoothed` is set. -/
def smoothedState (st : CurveAnalysis) (smoothers : List Smoother)
    (fit : FitOracle) : CurveAnalysis :=
  let res : ℕ → FitResult := fun i =>
    fit (smoothers.getD i 0) (fun s j => st.coordinates_grids i s j)
  { st with
      coordinates_grids := fun i s j => (res i).smoothedGrid s j,
      smoothed := true,
      dx1 := fun i s j => (res i).dx1Grid s j,
      dx2 := fun i s j => (res i).dx2Grid s j,
      coefficients := fun i s c => (res i).coeffs s c }

/-- The entry point `CurveAnalysis.smooth_grids`: argument dispatch and
validation as in the source, then the state replacement of
`smoothedState`. -/
def smooth_grids (st : CurveAnalysis) (smoother : Option SmootherArg)
    (fit : FitOracle) : Except PyError (CurveAnalysis × List String) :=
  match smoother with
  | none => Except.error (PyError.nameErr "basis")
  | some (SmootherArg.listOf l) =>
      if l.length ≠ st.nVar then
        Except.error (PyError.valueError
          "number of smoothers must be equal to the number of variable or equal to 1")
      else
        Except.ok (smoothedState st l fit,
          ["Smoothing data...", "Smoothing Done"])
  | some (SmootherArg.single s) =>
      Except.ok (smoothedState st (List.replicate st.nVar s) fit,
        ["Smoothing data...", "Smoothing Done"])

/-- numpy `np.mean` of the first `m` entries of `x`. -/
def pyMean (m : ℕ) (x : ℕ → ℝ) : ℝ :=
  (∑ i in Finset.range m, x i) / m

/-- numpy `np.std` (population) of the first `m` entries of `x`. -/
def pyStd (m : ℕ) (x : ℕ → ℝ) : ℝ :=
  Real.sqrt ((∑ i in Finset.range m, (x i - pyMean m x) ^ 2) / m)

/-- The local helper `_scale` inside `scale_grids`: centre a length-`m`
vector by its mean and optionally divide by its standard deviation. -/
def scaleVec (m : ℕ) (x : ℕ → ℝ) (with_std : Bool) : ℕ → ℝ :=
  fun i =>
    if with_std then (x i - pyMean m x) / pyStd m x else x i - pyMean m x

/-- Python indexing of the shape tuple `(nS, nO, 1)` of a per-coordinate
`data_matrix` by a possibly negative `axis`: valid python indices are
`-3 … 2`, anything else raises IndexError (`none`). -/
def pyShapeIndex (nS nO : ℕ) (axis : ℤ) : Option ℕ :=
  if axis = 0 then some nS
  else if axis = 1 then some nO
  else if axis = 2 then some 1
  else if axis = -1 then some 1
  else if axis = -2 then some nO
  else if axis = -3 then some nS
  else none

/-- One iteration of the mutation loop in `scale_grids` on one coordinate
grid `g : series → observation → ℝ`: for `axis == 0` row `i` is centred
across its observations; for any other axis the source writes
`grid.data_matrix[:, i, 0]`, centring observation column `i` across series —
an IndexError if `i ≥ nO`. -/
def scaleStep (nS nO : ℕ) (axis : ℤ) (with_std : Bool)
    (g : ℕ → ℕ → ℝ) (i : ℕ) : Except PyError (ℕ → ℕ → ℝ) :=
  if axis = 0 then
    Except.ok (fun s j => if s = i then scaleVec nO (g i) with_std j else g s j)
  else if i < nO then
    Except.ok (fun s j =>
      if j = i then scaleVec nS (fun s2 => g s2 i) with_std s else g s j)
  else Except.error PyError.indexError

/-- The full mutation loop of `scale_grids` on one coordinate grid:
`for i in range(grid.data_matrix.shape[axis]): ...`. -/
def scaleOneGrid (nS nO : ℕ) (axis : ℤ) (with_std : Bool)
    (g : ℕ → ℕ → ℝ) : Except PyError (ℕ → ℕ → ℝ) :=
  match pyShapeIndex nS nO axis with
  | none => Except.error PyError.indexError
  | some m => (List.range m).foldlM (scaleStep nS nO axis with_std) g

/-- `CurveAnalysis.scale_grids`.  Control flow from the source: if `_scaled`
is already set, print a warning and return unchanged (this check comes FIRST,
before any axis validation); then `if axis > 1: raise ValueError(...)` — note
that negative axes pass this check and reach the mutation loop, where python's
negative indexing of the shape tuple applies; finally each coordinate grid is
scaled in place and `_scaled` is set.  (The dead rebinding
`grid = FDataGrid(...)` at the end of the source loop has no effect and is
not modelled.) -/
def scale_grids (st : CurveAnalysis) (axis : ℤ) (with_std : Bool) :
    Except PyError (CurveAnalysis × List String) :=
  if st.scaled then
    Except.ok (st, ["Data was already scaled, no additionnal scale done"])
  else if 1 < axis then
    Except.error (PyError.valueError "axis should be either 0 or 1")
  else do
    let grids ← (List.range st.nVar).foldlM
      (fun (acc : ℕ → ℕ → ℕ → ℝ) v => do
        let g ← scaleOneGrid st.nSeries st.nObs axis with_std (acc v)
        pure (fun v2 => if v2 = v then g else acc v2))
      st.coordinates_grids
    Except.ok ({ st with coordinates_grids := grids, scaled := true }, [])

/-- `CurveAnalysis.compute_velocity`: lazily smooths (with all-default
arguments, i.e. `smoother = None`) when `_smoothed` is false, then stacks each
series' per-variable first-derivative values into the `V × N` matrix
`dx1_mat` and applies `_calculate_velocity` row by row, returning an
`FDataGrid` labelled "velocity" over the same sample points. -/
def compute_velocity (st : CurveAnalysis) (fit : FitOracle) :
    Except PyError FDataGridE := do
  let st ← if st.smoothed then pure st else (smooth_grids st none fit).map Prod.fst
  Except.ok
    { nRows := st.nSeries, nCols := st.nObs,
      data := fun i j =>
        calculate_velocity st.nVar (fun k jj => st.dx1 k i jj) j,
      sample_points := st.sample_points,
      dataset_label := "velocity" }

/-- `CurveAnalysis.compute_arc_length`: same lazy smoothing and stacking as
`compute_velocity`, then `_calculate_arc_length(DX1=dx1_mat,
t=self.sample_points)` per series, labelled "arc_length". -/
def compute_arc_length (st : CurveAnalysis) (fit : FitOracle) :
    Except PyError FDataGridE := do
  let st ← if st.smoothed then pure st else (smooth_grids st none fit).map Prod.fst
  Except.ok
    { nRows := st.nSeries, nCols := st.nObs,
      data := fun i j =>
        calculate_arc_length st.nVar (fun k jj => st.dx1 k i jj)
          st.sample_points j,
      sample_points := st.sample_points,
      dataset_label := "arc_length" }

/-- `CurveAnalysis.compute_curvature`: same lazy smoothing, stacks both
`dx1_mat` and `dx2_mat`, applies `_calculate_curvature` per series, labelled
"curvature". -/
def compute_curvature (st : CurveAnalysis) (fit : FitOracle) :
    Except PyError FDataGridE := do
  let st ← if st.smoothed then pure st else (smooth_grids st none fit).map Prod.fst
  Except.ok
    { nRows := st.nSeries, nCols := st.nObs,
      data := fun i j =>
        calculate_curvature st.nVar (fun k jj => st.dx1 k i jj)
          (fun k jj => st.dx2 k i jj) j,
      sample_points := st.sample_points,
      dataset_label := "curvature" }

end CurveAnalysis

/-! Concrete oracles and states used by witnesses and counterexamples. -/

/-- A fit oracle returning all-zero artifacts. -/
def fitZero : FitOracle := fun _ _ =>
  { history := [], smoothedGrid := fun _ _ => 0, coeffs := fun _ _ => 0,
    dx1Grid := fun _ _ => 0, dx2Grid := fun _ _ => 0 }

/-- A fit oracle returning all-one artifacts. -/
def fitConst1 : FitOracle := fun _ _ =>
  { history := [], smoothedGrid := fun _ _ => 1, coeffs := fun _ _ => 1,
    dx1Grid := fun _ _ => 1, dx2Grid := fun _ _ => 1 }

/-- A smoothed and scaled ensemble with all-zero grids (1 series, 2
observations, 1 variable). -/
def stSm : CurveAnalysis :=
  { nSeries := 1, nObs := 2, nVar := 1, sample_points := fun _ => 0,
    coordinates_grids := fun _ _ _ => 0, smoothed := true, scaled := true,
    dx1 := fun _ _ _ => 0, dx2 := fun _ _ _ => 0,
    coefficients := fun _ _ _ => 0 }

/-- A raw (unsmoothed, unscaled) ensemble with all-zero grids. -/
def stRaw : CurveAnalysis :=
  { nSeries := 1, nObs := 2, nVar := 1, sample_points := fun _ => 0,
    coordinates_grids := fun _ _ _ => 0, smoothed := false, scaled := false,
    dx1 := fun _ _ _ => 0, dx2 := fun _ _ _ => 0,
    coefficients := fun _ _ _ => 0 }

/-- An unscaled 1×1×1 ensemble whose single grid entry is 5. -/
def stU5 : CurveAnalysis :=
  { nSeries := 1, nObs := 1, nVar := 1, sample_points := fun _ => 0,
    coordinates_grids := fun _ _ _ => 5, smoothed := true, scaled := false,
    dx1 := fun _ _ _ => 0, dx2 := fun _ _ _ => 0,
    coefficients := fun _ _ _ => 0 }

/-- A smoothed single-variable ensemble with 2 observations, constant first
derivative 1 and sample points `t i = 2 i` (spacing 2, not 1). -/
def stC1 : CurveAnalysis :=
  { nSeries := 1, nObs := 2, nVar := 1, sample_points := fun i => 2 * (i : ℝ),
    coordinates_grids := fun _ _ _ => 0, smoothed := true, scaled := false,
    dx1 := fun _ _ _ => 1, dx2 := fun _ _ _ => 0,
    coefficients := fun _ _ _ => 0 }

/-! Helper lemmas shared by the claim theorems. -/

lemma calculate_velocity_nonneg (V : ℕ) (DX1 : ℕ → ℕ → ℝ) (j : ℕ) :
    0 ≤ calculate_velocity V DX1 j :=
  Real.sqrt_nonneg _

lemma norm2_eq_sum (V : ℕ) (x : ℕ → ℝ) :
    norm2 V x = ∑ k in Finset.range V, (x k) ^ 2 := by
  unfold norm2 euclNorm
  exact Real.sq_sqrt (by positivity)

lemma smooth_grids_none_eq (st : CurveAnalysis) (fit : FitOracle) :
    CurveAnalysis.smooth_grids st none fit
      = Except.error (PyError.nameErr "basis") := rfl

lemma smooth_grids_single_eq (st : CurveAnalysis) (s : Smoother)
    (fit : FitOracle) :
    CurveAnalysis.smooth_grids st (some (SmootherArg.single s)) fit
      = Except.ok
          (CurveAnalysis.smoothedState st (List.replicate st.nVar s) fit,
            ["Smoothing data...", "Smoothing Done"]) := rfl

lemma smooth_grids_list_err (st : CurveAnalysis) (l : List Smoother)
    (fit : FitOracle) (hne : l.length ≠ st.nVar) :
    CurveAnalysis.smooth_grids st (some (SmootherArg.listOf l)) fit
      = Except.error (PyError.valueError
          "number of smoothers must be equal to the number of variable or equal to 1") := by
  simp only [CurveAnalysis.smooth_grids]
  rw [if_pos hne]

lemma smooth_grids_list_ok (st : CurveAnalysis) (l : List Smoother)
    (fit : FitOracle) (heq : l.length = st.nVar) :
    CurveAnalysis.smooth_grids st (some (SmootherArg.listOf l)) fit
      = Except.ok (CurveAnalysis.smoothedState st l fit,
          ["Smoothing data...", "Smoothing Done"]) := by
  simp only [CurveAnalysis.smooth_grids]
  rw [if_neg (by simp [heq])]

lemma compute_velocity_smoothed (st : CurveAnalysis) (fit : FitOracle)
    (h : st.smoothed = true) :
    CurveAnalysis.compute_velocity st fit = Except.ok
      { nRows := st.nSeries, nCols := st.nObs,
        data := fun i j =>
          calculate_velocity st.nVar (fun k jj => st.dx1 k i jj) j,
        sample_points := st.sample_points, dataset_label := "velocity" } := by
  simp [CurveAnalysis.compute_velocity, h]

lemma compute_arc_length_smoothed (st : CurveAnalysis) (fit : FitOracle)
    (h : st.smoothed = true) :
    CurveAnalysis.compute_arc_length st fit = Except.ok
      { nRows := st.nSeries, nCols := st.nObs,
        data := fun i j =>
          calculate_arc_length st.nVar (fun k jj => st.dx1 k i jj)
            st.sample_points j,
        sample_points := st.sample_points, dataset_label := "arc_length" } := by
  simp [CurveAnalysis.compute_arc_length, h]

lemma compute_curvature_smoothed (st : CurveAnalysis) (fit : FitOracle)
    (h : st.smoothed = true) :
    CurveAnalysis.compute_curvature st fit = Except.ok
      { nRows := st.nSeries, nCols := st.nObs,
        data := fun i j =>
          calculate_curvature st.nVar (fun k jj => st.dx1 k i jj)
            (fun k jj => st.dx2 k i jj) j,
        sample_points := st.sample_points, dataset_label := "curvature" } := by
  simp [CurveAnalysis.compute_curvature, h]

/-! Claim theorems. -/

/-- Claim C6: on a smoothed ensemble, `compute_velocity` returns an `[S, N]`
grid labelled "velocity" over the same sample points whose entry for series
`i` at observation `j` is the Euclidean norm of the `V`-vector of
first-derivative values of series `i` at observation `j`. -/
theorem compute_velocity_correct (st : CurveAnalysis) (fit : FitOracle)
    (h : st.smoothed = true) :
    ∃ g, CurveAnalysis.compute_velocity st fit = Except.ok g
      ∧ g.nRows = st.nSeries ∧ g.nCols = st.nObs
      ∧ g.dataset_label = "velocity"
      ∧ g.sample_points = st.sample_points
      ∧ ∀ i j, g.data i j
          = Real.sqrt (∑ k in Finset.range st.nVar, (st.dx1 k i j) ^ 2) := by
  exact ⟨_, compute_velocity_smoothed st fit h, rfl, rfl, rfl, rfl,
    fun i j => rfl⟩

/-- Witness for C6 at a concrete smoothed ensemble. -/
theorem compute_velocity_correct_witness :
    ∃ g, CurveAnalysis.compute_velocity stSm fitZero = Except.ok g
      ∧ g.nRows = stSm.nSeries ∧ g.nCols = stSm.nObs
      ∧ g.dataset_label = "velocity"
      ∧ g.sample_points = stSm.sample_points
      ∧ ∀ i j, g.data i j
          = Real.sqrt (∑ k in Finset.range stSm.nVar, (stSm.dx1 k i j) ^ 2) :=
  compute_velocity_correct stSm fitZero rfl

/-- Claim C7: on a smoothed ensemble, each curvature entry is
`sqrt(|‖DX1‖² · ‖DX2‖² − (DX1 · DX2)²|) / ‖DX1‖³`, the absolute value being
taken before the square root; the grid is `[S, N]`-shaped and labelled
"curvature". -/
theorem compute_curvature_formula (st : CurveAnalysis) (fit : FitOracle)
    (h : st.smoothed = true) :
    ∃ g, CurveAnalysis.compute_curvature st fit = Except.ok g
      ∧ g.nRows = st.nSeries ∧ g.nCols = st.nObs
      ∧ g.dataset_label = "curvature"
      ∧ ∀ i j, g.data i j
          = Real.sqrt
              |(∑ k in Finset.range st.nVar, (st.dx1 k i j) ^ 2)
                  * (∑ k in Finset.range st.nVar, (st.dx2 k i j) ^ 2)
                - (∑ k in Finset.range st.nVar, st.dx1 k i j * st.dx2 k i j) ^ 2|
            / (Real.sqrt (∑ k in Finset.range st.nVar, (st.dx1 k i j) ^ 2)) ^ 3 := by
  refine ⟨_, compute_curvature_smoothed st fit h, rfl, rfl, rfl, fun i j => ?_⟩
  show calculate_curvature st.nVar (fun k jj => st.dx1 k i jj)
      (fun k jj => st.dx2 k i jj) j = _
  unfold calculate_curvature
  rw [norm2_eq_sum, norm2_eq_sum]
  rfl

/-- Witness for C7 at a concrete smoothed ensemble. -/
theorem compute_curvature_formula_witness :
    ∃ g, CurveAnalysis.compute_curvature stSm fitZero = Except.ok g
      ∧ g.nRows = stSm.nSeries ∧ g.nCols = stSm.nObs
      ∧ g.dataset_label = "curvature"
      ∧ ∀ i j, g.data i j
          = Real.sqrt
              |(∑ k in Finset.range stSm.nVar, (stSm.dx1 k i j) ^ 2)
                  * (∑ k in Finset.range stSm.nVar, (stSm.dx2 k i j) ^ 2)
                - (∑ k in Finset.range stSm.nVar,
                    stSm.dx1 k i j * stSm.dx2 k i j) ^ 2|
            / (Real.sqrt (∑ k in Finset.range stSm.nVar,
                (stSm.dx1 k i j) ^ 2)) ^ 3 :=
  compute_curvature_formula stSm fitZero rfl

/-- Claim C9: on a smoothed ensemble, each series' arc-length sequence starts
at 0 at the first domain point and is monotonically non-decreasing. -/
theorem arc_length_monotone_zero_start (st : CurveAnalysis) (fit : FitOracle)
    (h : st.smoothed = true) :
    ∃ g, CurveAnalysis.compute_arc_length st fit = Except.ok g
      ∧ (∀ i, g.data i 0 = 0)
      ∧ ∀ i j j', j ≤ j' → g.data i j ≤ g.data i j' := by
  refine ⟨_, compute_arc_length_smoothed st fit h, fun i => ?_,
    fun i j j' hjj => ?_⟩
  · show calculate_arc_length st.nVar (fun k jj => st.dx1 k i jj)
      st.sample_points 0 = 0
    simp [calculate_arc_length]
  · show calculate_arc_length st.nVar (fun k jj => st.dx1 k i jj)
        st.sample_points j
      ≤ calculate_arc_length st.nVar (fun k jj => st.dx1 k i jj)
        st.sample_points j'
    unfold calculate_arc_length
    refine Finset.sum_le_sum_of_subset_of_nonneg
      (Finset.range_subset.mpr hjj) (fun m _ _ => ?_)
    have h1 := calculate_velocity_nonneg st.nVar (fun k jj => st.dx1 k i jj) m
    have h2 := calculate_velocity_nonneg st.nVar (fun k jj => st.dx1 k i jj)
      (m + 1)
    linarith

/-- Witness for C9 at a concrete smoothed ensemble. -/
theorem arc_length_monotone_zero_start_witness :
    ∃ g, CurveAnalysis.compute_arc_length stSm fitZero = Except.ok g
      ∧ (∀ i, g.data i 0 = 0)
      ∧ ∀ i j j', j ≤ j' → g.data i j ≤ g.data i j' :=
  arc_length_monotone_zero_start stSm fitZero rfl

/-- Claim C1 (code bug): the source's `_calculate_arc_length` calls
`cumtrapz(v)` without `x=t`, so the increments ignore the domain spacing.  At
the concrete smoothed ensemble `stC1` (constant velocity 1, sample points
0 and 2) the code returns 1 at the second point while the spec's trapezoidal
rule over the domain points gives 2. -/
theorem arc_length_ignores_sample_spacing :
    (CurveAnalysis.compute_arc_length stC1 fitZero).map (fun g => g.data 0 1)
      = Except.ok 1
    ∧ arcLengthTrapzSpec stC1.nVar (fun k jj => stC1.dx1 k 0 jj)
        stC1.sample_points 1 = 2 := by
  constructor
  · rw [compute_arc_length_smoothed stC1 fitZero rfl]
    show Except.ok (calculate_arc_length stC1.nVar
      (fun k jj => stC1.dx1 k 0 jj) stC1.sample_points 1) = Except.ok 1
    simp [calculate_arc_length, calculate_velocity, euclNorm, stC1,
      Finset.sum_range_one]
  · simp [arcLengthTrapzSpec, calculate_velocity, euclNorm, stC1,
      Finset.sum_range_one]

/-- Claim C2 (code bug): on an unsmoothed ensemble each of the three feature
computations triggers the lazy default smoothing pass, but that path
evaluates `BasisSmoother(basis, ...)` with the global name `basis` undefined
in the module, so python raises NameError instead of smoothing and returning
the feature grid. -/
theorem compute_features_unsmoothed_raise (st : CurveAnalysis)
    (fit : FitOracle) (h : st.smoothed = false) :
    CurveAnalysis.compute_velocity st fit
        = Except.error (PyError.nameErr "basis")
    ∧ CurveAnalysis.compute_arc_length st fit
        = Except.error (PyError.nameErr "basis")
    ∧ CurveAnalysis.compute_curvature st fit
        = Except.error (PyError.nameErr "basis") := by
  refine ⟨?_, ?_, ?_⟩ <;>
  · simp only [CurveAnalysis.compute_velocity, CurveAnalysis.compute_arc_length,
      CurveAnalysis.compute_curvature, h]
    rfl

/-- Witness for C2 at a concrete unsmoothed ensemble. -/
theorem compute_features_unsmoothed_raise_witness :
    CurveAnalysis.compute_velocity stRaw fitZero
        = Except.error (PyError.nameErr "basis")
    ∧ CurveAnalysis.compute_arc_length stRaw fitZero
        = Except.error (PyError.nameErr "basis")
    ∧ CurveAnalysis.compute_curvature stRaw fitZero
        = Except.error (PyError.nameErr "basis") :=
  compute_features_unsmoothed_raise stRaw fitZero rfl

/-- Counterexample for C3: on an already-smoothed ensemble, re-invoking
`smooth_grids` is NOT a no-op — with a fit oracle returning constant-1 grids
the stored coordinate grid entry changes from 0 to 1. -/
theorem smooth_grids_reapplied_cex :
    stSm.smoothed = true
    ∧ (CurveAnalysis.smooth_grids stSm (some (SmootherArg.single 0))
          fitConst1).map (fun p => p.1.coordinates_grids 0 0 0)
      ≠ Except.ok (stSm.coordinates_grids 0 0 0) := by
  refine ⟨rfl, ?_⟩
  rw [smooth_grids_single_eq]
  simp [CurveAnalysis.smoothedState, stSm, fitConst1, Except.map]

lemma getElem?_replicate_of_lt {n : ℕ} {s : Smoother} {i : ℕ} (hi : i < n) :
    (List.replicate n s)[i]? = some s := by
  induction n generalizing i with
  | zero => omega
  | succ m ih =>
    cases i with
    | zero => simp [List.replicate_succ]
    | succ i2 => simpa [List.replicate_succ] using ih (i := i2) (by omega)

/-- Claim C3 (amended): re-invoking `scale_grids` on an already-scaled
ensemble is a no-op with a warning and never raises; `smooth_grids`, however,
has no already-smoothed guard — re-invoking it re-runs smoothing
unconditionally, replacing the stored grids and derivative grids from fresh
fit results, and emits only the normal progress messages, no warning. -/
theorem scale_noop_smooth_reruns (st : CurveAnalysis) (axis : ℤ) (w : Bool)
    (s : Smoother) (fit : FitOracle)
    (hsc : st.scaled = true) (hsm : st.smoothed = true) :
    CurveAnalysis.scale_grids st axis w
      = Except.ok (st, ["Data was already scaled, no additionnal scale done"])
    ∧ ∃ st', CurveAnalysis.smooth_grids st (some (SmootherArg.single s)) fit
        = Except.ok (st', ["Smoothing data...", "Smoothing Done"])
      ∧ ∀ i, i < st.nVar → ∀ a b,
          st'.coordinates_grids i a b
              = (fit s (fun a2 b2 =>
                  st.coordinates_grids i a2 b2)).smoothedGrid a b
          ∧ st'.dx1 i a b
              = (fit s (fun a2 b2 => st.coordinates_grids i a2 b2)).dx1Grid a b
          ∧ st'.dx2 i a b
              = (fit s (fun a2 b2 =>
                  st.coordinates_grids i a2 b2)).dx2Grid a b := by
  constructor
  · simp [CurveAnalysis.scale_grids, hsc]
  · refine ⟨_, smooth_grids_single_eq st s fit, fun i hi a b => ?_⟩
    simp [CurveAnalysis.smoothedState, getElem?_replicate_of_lt hi]

/-- Witness for C3 (amended) at a concrete scaled and smoothed ensemble. -/
theorem scale_noop_smooth_reruns_witness :
    CurveAnalysis.scale_grids stSm 0 false
      = Except.ok (stSm, ["Data was already scaled, no additionnal scale done"])
    ∧ ∃ st', CurveAnalysis.smooth_grids stSm (some (SmootherArg.single 0))
        fitConst1 = Except.ok (st', ["Smoothing data...", "Smoothing Done"])
      ∧ ∀ i, i < stSm.nVar → ∀ a b,
          st'.coordinates_grids i a b
              = (fitConst1 0 (fun a2 b2 =>
                  stSm.coordinates_grids i a2 b2)).smoothedGrid a b
          ∧ st'.dx1 i a b
              = (fitConst1 0 (fun a2 b2 =>
                  stSm.coordinates_grids i a2 b2)).dx1Grid a b
          ∧ st'.dx2 i a b
              = (fitConst1 0 (fun a2 b2 =>
                  stSm.coordinates_grids i a2 b2)).dx2Grid a b :=
  scale_noop_smooth_reruns stSm 0 false 0 fitConst1 rfl rfl

/-- Counterexample for C4: `axis = -1` is not in `{0, 1}`, yet on an
unscaled ensemble `scale_grids` accepts it (the source only checks
`axis > 1`) and mutates the grid: the 1×1×1 ensemble entry 5 is centred
to 0. -/
theorem scale_negative_axis_cex :
    stU5.scaled = false
    ∧ (CurveAnalysis.scale_grids stU5 (-1) false).map
        (fun p => p.1.coordinates_grids 0 0 0) = Except.ok 0
    ∧ stU5.coordinates_grids 0 0 0 = 5 := by
  refine ⟨rfl, ?_, rfl⟩
  have hr1 : List.range 1 = [0] := rfl
  simp [CurveAnalysis.scale_grids, stU5, CurveAnalysis.scaleOneGrid,
    CurveAnalysis.pyShapeIndex, CurveAnalysis.scaleStep,
    CurveAnalysis.scaleVec, CurveAnalysis.pyMean, Except.map,
    Finset.sum_range_one, hr1, List.foldlM_cons, List.foldlM_nil, Except.bind]
  rfl

/-- Claim C4 (amended): on a not-yet-scaled ensemble, any `axis > 1` makes
`scale_grids` fail with ValueError before any grid is touched; negative axis
arguments, however, pass the check (see the counterexample). -/
theorem scale_axis_gt_one_raises (st : CurveAnalysis) (axis : ℤ) (w : Bool)
    (h1 : st.scaled = false) (h2 : 1 < axis) :
    CurveAnalysis.scale_grids st axis w
      = Except.error (PyError.valueError "axis should be either 0 or 1") := by
  simp [CurveAnalysis.scale_grids, h1, h2]

/-- Witness for C4 (amended) at a concrete unscaled ensemble with axis 2. -/
theorem scale_axis_gt_one_raises_witness :
    CurveAnalysis.scale_grids stU5 2 false
      = Except.error (PyError.valueError "axis should be either 0 or 1") :=
  scale_axis_gt_one_raises stU5 2 false rfl (by norm_num)

/-- Claim C5: `smooth_grids` with a smoother list whose length differs from
the variable count fails with ValueError before any fitting (hence with no
state change); with a list of length exactly `V` it succeeds, marks the
ensemble smoothed, and each variable's grid comes from fitting that
variable's own smoother on that variable's coordinate grid. -/
theorem smooth_grids_list_length_check (st : CurveAnalysis) (fit : FitOracle)
    (l : List Smoother) :
    (l.length ≠ st.nVar →
      CurveAnalysis.smooth_grids st (some (SmootherArg.listOf l)) fit
        = Except.error (PyError.valueError
            "number of smoothers must be equal to the number of variable or equal to 1"))
    ∧ (l.length = st.nVar →
      ∃ st' msgs,
        CurveAnalysis.smooth_grids st (some (SmootherArg.listOf l)) fit
          = Except.ok (st', msgs)
        ∧ st'.smoothed = true
        ∧ ∀ i a b, st'.coordinates_grids i a b
            = (fit (l.getD i 0)
                (fun a2 b2 => st.coordinates_grids i a2 b2)).smoothedGrid a b) := by
  constructor
  · intro hne
    exact smooth_grids_list_err st l fit hne
  · intro heq
    exact ⟨_, _, smooth_grids_list_ok st l fit heq, rfl, fun i a b => rfl⟩

/-- Witness for C5: length-2 list against a 1-variable ensemble errors. -/
theorem smooth_grids_list_length_check_witness :
    CurveAnalysis.smooth_grids stRaw (some (SmootherArg.listOf [0, 0]))
        fitZero
      = Except.error (PyError.valueError
          "number of smoothers must be equal to the number of variable or equal to 1") :=
  (smooth_grids_list_length_check stRaw fitZero [0, 0]).1 (by simp [stRaw])

/-- Claim C8: at an observation where the first-derivative vector is zero,
the curvature evaluation under numpy float semantics yields `nan` — a
defined, non-exceptional value — and `compute_curvature` on a smoothed
ensemble always returns a grid, never an exception. -/
theorem curvature_zero_velocity_nan (V : ℕ) (DX1 DX2 : ℕ → ℝ)
    (h : ∀ k, k < V → DX1 k = 0) :
    curvatureEntryNp V DX1 DX2 = NpFloat.nan
    ∧ ∀ st fit, st.smoothed = true →
        ∃ g, CurveAnalysis.compute_curvature st fit = Except.ok g := by
  constructor
  · have hs : ∑ k in Finset.range V, (DX1 k) ^ 2 = 0 :=
      Finset.sum_eq_zero fun k hk => by
        rw [h k (Finset.mem_range.mp hk)]; ring
    have hd : dotV V DX1 DX2 = 0 :=
      Finset.sum_eq_zero fun k hk => by
        rw [h k (Finset.mem_range.mp hk)]; ring
    have hn : euclNorm V DX1 = 0 := by rw [euclNorm, hs, Real.sqrt_zero]
    have h2 : norm2 V DX1 = 0 := by rw [norm2, hn]; ring
    rw [curvatureEntryNp, h2, hd, hn]
    norm_num [npDiv]
  · intro st fit hsm
    exact ⟨_, compute_curvature_smoothed st fit hsm⟩

/-- Witness for C8 at a concrete zero first-derivative vector. -/
theorem curvature_zero_velocity_nan_witness :
    curvatureEntryNp 1 (fun _ => 0) (fun _ => 1) = NpFloat.nan :=
  (curvature_zero_velocity_nan 1 (fun _ => 0) (fun _ => 1)
    (fun _ _ => rfl)).1

/-- Claim C10: the already-scaled guard of `scale_grids` precedes the axis
validation, so on an already-scaled ensemble a second call returns the
warning without raising, for every axis argument — even out-of-range ones. -/
theorem scale_grids_scaled_guard_first (st : CurveAnalysis) (axis : ℤ)
    (w : Bool) (h : st.scaled = true) :
    CurveAnalysis.scale_grids st axis w
      = Except.ok
          (st, ["Data was already scaled, no additionnal scale done"]) := by
  simp [CurveAnalysis.scale_grids, h]

/-- Witness for C10 at a scaled ensemble with the out-of-range axis 7. -/
theorem scale_grids_scaled_guard_first_witness :
    CurveAnalysis.scale_grids stSm 7 false
      = Except.ok
          (stSm, ["Data was already scaled, no additionnal scale done"]) :=
  scale_grids_scaled_guard_first stSm 7 false rfl

end

end FdaFeature
